import Mathlib

/-!
Verification of the wmr npm middleware (npm-middleware.js, shallowly embedded
below) and of the npm-plugin-2 bundling pipeline (npm-bundle.js).

The middleware source is embedded as a pure function over an explicit record of
external collaborators (the registry, the cache files and the module compiler
are imported modules, not part of the source under verification); the rollup
compiler is modelled as an oracle producing a cache object and an output chunk
list.  Effects on collaborators (cache reads and writes, compiler invocations,
calls to the error callback) are recorded in an explicit effect trace.
-/

set_option autoImplicit false

namespace Wmr

/-- Error taxonomy of the spec (section 7), plus a constructor for a plain
runtime crash (such as reading a property of undefined). -/
inductive Err where
  | malformedSpecifier
  | versionResolution
  | disallowedAccess
  | buildError
  | unsupportedSource
  | crash
deriving DecidableEq, Repr

/-- Result of normalizeSpecifier: the fields of the meta object that
npm-middleware.js reads (meta.specifier, meta.version, meta.path). -/
structure Meta where
  specifier : String
  version : String
  path : String
deriving DecidableEq, Repr

/-! ## Base64 (Buffer.toString with base64 encoding) -/

/-- The 64-character base64 alphabet A-Z a-z 0-9 + / . -/
def b64Alphabet : List Char :=
  (List.range 26).map (fun i => Char.ofNat (65 + i)) ++
  (List.range 26).map (fun i => Char.ofNat (97 + i)) ++
  (List.range 10).map (fun i => Char.ofNat (48 + i)) ++
  [Char.ofNat 43, Char.ofNat 47]

/-- Character for a six-bit group. -/
def sextetChar (n : Nat) : Char := b64Alphabet.getD n (Char.ofNat 65)

/-- Index of a character in the base64 alphabet (length of the alphabet when
absent; only used on alphabet characters). -/
def sextetVal (c : Char) : Nat := b64Alphabet.findIdx (fun x => x = c)

/-- Base64 encoding of a byte list, with padding, exactly as
Buffer.toString(base64) produces it. -/
def b64Encode : List Nat → List Char
  | a :: b :: c :: rest =>
    sextetChar (a / 4) :: sextetChar (a % 4 * 16 + b / 16) ::
    sextetChar (b % 16 * 4 + c / 64) :: sextetChar (c % 64) :: b64Encode rest
  | [a, b] => [sextetChar (a / 4), sextetChar (a % 4 * 16 + b / 16), sextetChar (b % 16 * 4), '=']
  | [a] => [sextetChar (a / 4), sextetChar (a % 4 * 16), '=', '=']
  | [] => []

/-- Partial inverse of b64Encode, used to prove the encoding injective. -/
def b64Decode : List Char → Option (List Nat)
  | c1 :: c2 :: c3 :: c4 :: rest =>
    if c3 = '=' then some [sextetVal c1 * 4 + sextetVal c2 / 16]
    else if c4 = '=' then
      some [sextetVal c1 * 4 + sextetVal c2 / 16, sextetVal c2 % 16 * 16 + sextetVal c3 / 4]
    else
      (b64Decode rest).map (fun l =>
        (sextetVal c1 * 4 + sextetVal c2 / 16) ::
        (sextetVal c2 % 16 * 16 + sextetVal c3 / 4) ::
        (sextetVal c3 % 4 * 64 + sextetVal c4) :: l)
  | [] => some []
  | _ => none

/-! ## UTF-8 (Buffer.from on a string) -/

/-- UTF-8 bytes of one code point. -/
def utf8EncodeChar (n : Nat) : List Nat :=
  if n < 128 then [n]
  else if n < 2048 then [192 + n / 64, 128 + n % 64]
  else if n < 65536 then [224 + n / 4096, 128 + n / 64 % 64, 128 + n % 64]
  else [240 + n / 262144, 128 + n / 4096 % 64, 128 + n / 64 % 64, 128 + n % 64]

/-- UTF-8 bytes of a list of code points. -/
def utf8Encode : List Nat → List Nat
  | [] => []
  | n :: rest => utf8EncodeChar n ++ utf8Encode rest

/-- Number of continuation bytes announced by a UTF-8 lead byte of 128 or
more. -/
def utf8ContLen (b : Nat) : Nat :=
  if b < 224 then 1 else if b < 240 then 2 else 3

/-- Code point reconstructed from a lead byte of 128 or more and the list
holding its continuation bytes. -/
def utf8Cp (b : Nat) (rest : List Nat) : Nat :=
  if b < 224 then (b - 192) * 64 + (rest.getD 0 0 - 128)
  else if b < 240 then
    (b - 224) * 4096 + (rest.getD 0 0 - 128) * 64 + (rest.getD 1 0 - 128)
  else
    (b - 240) * 262144 + (rest.getD 0 0 - 128) * 4096 +
    (rest.getD 1 0 - 128) * 64 + (rest.getD 2 0 - 128)

/-- Partial inverse of utf8Encode, used to prove the encoding injective. -/
def utf8Decode : List Nat → Option (List Nat)
  | [] => some []
  | b :: rest =>
    if b < 128 then (utf8Decode rest).map (fun l => b :: l)
    else if utf8ContLen b ≤ rest.length then
      (utf8Decode (rest.drop (utf8ContLen b))).map (fun l => utf8Cp b rest :: l)
    else none
termination_by l => l.length
decreasing_by
  · simp
  · simp [List.length_drop]; omega

/-- UTF-8 bytes of a string, as Buffer.from(str) computes them. -/
def utf8Bytes (s : String) : List Nat := utf8Encode (s.data.map Char.toNat)

/-- Number of bytes of the UTF-8 form of a string (Buffer.byteLength). -/
def byteLength (s : String) : Nat := (utf8Bytes s).length

/-- The ETag of npm-middleware.js line 71:
Buffer.from(meta.specifier + meta.version).toString(base64). -/
def etagOf (specifier version : String) : String :=
  String.mk (b64Encode (utf8Bytes (specifier ++ version)))

/-! ## String primitives over the character list (kernel-computable) -/

/-- Whether pat occurs at the end of s (character level; all patterns used
here are ASCII, so this is the JS code-unit behavior). -/
def strEndsWith (s pat : String) : Bool := pat.data.isSuffixOf s.data

/-- Whether pat occurs at the start of s (character level). -/
def strStartsWith (s pat : String) : Bool := pat.data.isPrefixOf s.data

/-- Remove the last n characters. -/
def strDropRight (s : String) (n : Nat) : String :=
  String.mk (s.data.take (s.data.length - n))

/-- Remove the first n characters. -/
def strDrop (s : String) (n : Nat) : String := String.mk (s.data.drop n)

/-- Split a character list on a separator character; mirrors String.split
with a one-character separator (the empty input gives one empty piece). -/
def splitOnChar (sep : Char) : List Char → List (List Char)
  | [] => [[]]
  | c :: rest =>
    let r := splitOnChar sep rest
    if c = sep then [] :: r
    else
      match r with
      | h :: t => (c :: h) :: t
      | [] => [[c]]

/-- Interleave a separator character between pieces. -/
def joinChar (sep : Char) : List (List Char) → List Char
  | [] => []
  | [l] => l
  | l :: rest => l ++ sep :: joinChar sep rest

/-! ## Request shaping helpers of npm-middleware.js -/

/-- JS String(h) where h is the if-none-match header: an absent header is the
undefined value, which String() renders as the text undefined. -/
def headerString : Option String → String
  | none => "undefined"
  | some s => s

/-- The replace of the leading-slash regex on the pathname: removes one
leading slash if present. -/
def stripLeadingSlash (p : String) : String :=
  if strStartsWith p "/" then strDrop p 1 else p

/-- The replace of the anchored compression-suffix regex on the if-none-match
value: removes one trailing -gz or -br (the regex is anchored at the end of
the string, so even with the global flag at most one suffix is removed). -/
def stripCompressSuffix (s : String) : String :=
  if strEndsWith s "-gz" || strEndsWith s "-br" then strDropRight s 3 else s

/-- Stylesheet extensions of the asset-dispatch regex (css, sass, scss, less). -/
def isStylesheetPath (p : String) : Bool :=
  strEndsWith p ".css" || strEndsWith p ".sass" || strEndsWith p ".scss" ||
  strEndsWith p ".less"

/-- The asset-dispatch test of npm-middleware.js line 79: stylesheet, wasm,
txt and json subpaths bypass the module compiler. -/
def isAssetPath (p : String) : Bool :=
  isStylesheetPath p || strEndsWith p ".wasm" || strEndsWith p ".txt" ||
  strEndsWith p ".json"

/-- A single-quote character as a string. -/
def sq : String := String.singleton (Char.ofNat 39)

/-- Hex digit characters used by the JSON string escape. -/
def hexDigit (n : Nat) : Char :=
  if n < 10 then Char.ofNat (48 + n) else Char.ofNat (87 + n)

/-- Escape of one character inside a JSON string literal, as JSON.stringify
performs it. -/
def jsonEscapeChar (c : Char) : List Char :=
  if c = Char.ofNat 34 then [Char.ofNat 92, Char.ofNat 34]
  else if c = Char.ofNat 92 then [Char.ofNat 92, Char.ofNat 92]
  else if c = Char.ofNat 8 then [Char.ofNat 92, 'b']
  else if c = Char.ofNat 9 then [Char.ofNat 92, 't']
  else if c = Char.ofNat 10 then [Char.ofNat 92, 'n']
  else if c = Char.ofNat 12 then [Char.ofNat 92, 'f']
  else if c = Char.ofNat 13 then [Char.ofNat 92, 'r']
  else if c.toNat < 32 then
    [Char.ofNat 92, 'u', '0', '0', hexDigit (c.toNat / 16), hexDigit (c.toNat % 16)]
  else [c]

/-- JSON.stringify of a string value. -/
def jsonStringify (s : String) : String :=
  String.mk (Char.ofNat 34 :: (s.data.map jsonEscapeChar).flatten ++ [Char.ofNat 34])

/-- The import statement of the CSS proxy module emitted by handleAsset. -/
def styleImportStmt : String :=
  "import\x7bstyle\x7dfrom " ++ sq ++ "/_wmr.js" ++ sq ++ ";"

/-- The style loader call of the CSS proxy module emitted by handleAsset. -/
def styleCallStmt (arg : String) : String := "style(" ++ arg ++ ");"

/-- The complete proxy module source of handleAsset for module requests:
one import of the runtime style loader followed by one call handing it the
decorated specifier literal. -/
def styleProxyCode (specifier : String) : String :=
  styleImportStmt ++ "\n" ++
  styleCallStmt (jsonStringify ("/@npm/" ++ specifier ++ "?asset"))

/-- Modelled from the spec: getMimeType (mimetypes.js is not under src/)
derives the content type from the file extension; spec section 8 scenario C
fixes stylesheet subpaths to the stylesheet content type text/css, and the
other asset families are mapped per their extension. Unknown extensions give
none, and the caller falls back to text/plain. -/
def getMimeType (p : String) : Option String :=
  if isStylesheetPath p then some "text/css"
  else if strEndsWith p ".wasm" then some "application/wasm"
  else if strEndsWith p ".txt" then some "text/plain"
  else if strEndsWith p ".json" then some "application/json"
  else none

/-! ## The middleware as a pure function with an explicit effect trace -/

/-- The parts of the incoming request that npm-middleware.js reads: the URL
pathname, the if-none-match header, and whether the module query flag is
present. -/
structure Request where
  pathname : String
  ifNoneMatch : Option String
  queryModule : Bool
deriving DecidableEq, Repr

/-- The response written on res: status code, headers in the order they are
set, and the body. -/
structure Response where
  status : Nat
  headers : List (String × String)
  body : String
deriving DecidableEq, Repr

/-- Trace of collaborator invocations made while handling one request. -/
structure Effects where
  getCachedBundleCalled : Bool
  setCachedBundleCalls : List (String × String)
  bundleCalled : Bool
  handleAssetCalled : Bool
  enqueueCompressCalls : List String
  nextCalls : List Err
deriving DecidableEq, Repr

/-- The empty effect trace. -/
def emptyEffects : Effects := ⟨false, [], false, false, [], []⟩

/-- Overall outcome of one middleware invocation: the response written (if
any), the effect trace, and whether an exception escaped the handler as a
rejected promise (thrown outside every try block, so next is not called). -/
structure MwResult where
  response : Option Response
  effects : Effects
  thrown : Bool
deriving DecidableEq, Repr

/-- The external collaborators imported by npm-middleware.js, as oracles:
the specifier normalizer and registry resolver (npm-plugin), the cache file
reader (npm-middleware-cache.js), the bundler outcome, and the registry file
loader. -/
structure Collab where
  normalizeSpecifier : String → Except Err Meta
  resolvePackageVersion : Meta → Except Err Meta
  getCachedBundle : String → Meta → String → Option String
  bundleNpmModule : String → Except Err String
  loadPackageFile : Meta → String

/-- Construction-time options of npmMiddleware (source, alias, optimize and
the virtual cwd). The optimize flag is optional and compared against an
explicit false, as in the source. -/
structure MwOptions where
  aliasMap : List (String × String)
  optimize : Option Bool
  cwd : String

/-- Embedding of handleAsset: module requests get the synthesized style proxy
module, others get the raw package file with the extension-derived content
type (text/plain when unknown). The headers already set on the response by
the middleware are kept. -/
def handleAsset (c : Collab) (meta : Meta) (isModule : Bool)
    (hdrs : List (String × String)) : Response :=
  if isModule then
    let code := styleProxyCode meta.specifier
    ⟨200,
     hdrs ++ [("content-type", "application/javascript;charset=utf-8"),
              ("content-length", toString (byteLength code))],
     code⟩
  else
    let code := c.loadPackageFile meta
    ⟨200,
     hdrs ++ [("content-type", (getMimeType meta.path).getD "text/plain"),
              ("content-length", toString (byteLength code))],
     code⟩

/-- Modelled from the spec: sendCachedBundle (npm-middleware-cache.js is not
under src/) streams the stored bytes of a cache hit with the content length,
keeping the validator and content-type headers the middleware already set. -/
def sendCachedBundle (hdrs : List (String × String)) (code : String) : Response :=
  ⟨200, hdrs ++ [("content-length", toString (byteLength code))], code⟩

/-- Embedding of the request handler returned by npmMiddleware, line by line:
normalize the specifier (outside every try block, so a failure there escapes
as a rejected promise); resolve the version (its own try, failure goes to
next); compute the ETag and answer 304 on an if-none-match match; set the
etag header; dispatch assets to handleAsset; otherwise set the content type,
consult the cache, bundle on a miss, send the code, store it and enqueue
compression unless optimize is explicitly false; failures inside the main try
go to next. -/
def npmMiddleware (c : Collab) (opts : MwOptions) (req : Request) : MwResult :=
  let mod := stripLeadingSlash req.pathname
  match c.normalizeSpecifier mod with
  | .error _ => ⟨none, emptyEffects, true⟩
  | .ok meta0 =>
    match c.resolvePackageVersion meta0 with
    | .error e => ⟨none, ⟨false, [], false, false, [], [e]⟩, false⟩
    | .ok meta =>
      let etag := etagOf meta.specifier meta.version
      if stripCompressSuffix (headerString req.ifNoneMatch) = etag then
        ⟨some ⟨304, [], ""⟩, emptyEffects, false⟩
      else
        let hdrs := [("etag", etag)]
        if isAssetPath meta.path then
          ⟨some (handleAsset c meta req.queryModule hdrs),
           ⟨false, [], false, true, [], []⟩, false⟩
        else
          let hdrs := hdrs ++ [("content-type", "application/javascript;charset=utf-8")]
          match c.getCachedBundle etag meta opts.cwd with
          | some cached =>
            ⟨some (sendCachedBundle hdrs cached),
             ⟨true, [], false, false, [], []⟩, false⟩
          | none =>
            match c.bundleNpmModule mod with
            | .error e =>
              ⟨none, ⟨true, [], true, false, [], [e]⟩, false⟩
            | .ok code =>
              ⟨some ⟨200, hdrs ++ [("content-length", toString (byteLength code))], code⟩,
               ⟨true, [(etag, code)], true, false,
                (if opts.optimize ≠ some false then [etag] else []), []⟩,
               false⟩

/-! ## bundleNpmModule and the shared warm cache -/

/-- The configured source of package files of npm-middleware.js options. -/
inductive NpmSource where
  | npm
  | unpkg
deriving DecidableEq, Repr

/-- One chunk of generated compiler output; the middleware only reads the
code field. -/
structure OutputChunk where
  code : String
deriving DecidableEq, Repr

/-- The object returned by a successful rollup.rollup call, abstracted over
the type of the opaque warm-cache object: the new cache and the behavior of
its generate step (which can itself fail, or produce a list of chunks). -/
structure RollupBundle (C : Type) where
  cache : C
  genOutput : Except Err (List OutputChunk)

/-- Outcome of one bundleNpmModule call: the returned code or error, the
value of the module-level npmCache variable afterwards, and whether
rollup.rollup was invoked at all. -/
structure BundleRun (C : Type) where
  result : Except Err String
  npmCache : Option C
  rollupInvoked : Bool

/-- Embedding of bundleNpmModule: selecting the unpkg source throws before
the compiler is configured or invoked; otherwise rollup.rollup runs (its
outcome is the rollupRun oracle), the module-level npmCache is assigned the
fresh bundle cache, and only then generate runs; the returned body is the
code of chunk zero of the generated output (an empty output makes the chunk
access crash). -/
def bundleNpmModule (C : Type) (source : NpmSource)
    (rollupRun : Except Err (RollupBundle C)) (cache0 : Option C) : BundleRun C :=
  match source with
  | .unpkg => ⟨.error .unsupportedSource, cache0, false⟩
  | .npm =>
    match rollupRun with
    | .error e => ⟨.error e, cache0, true⟩
    | .ok b =>
      match b.genOutput with
      | .error e => ⟨.error e, some b.cache, true⟩
      | .ok [] => ⟨.error .crash, some b.cache, true⟩
      | .ok (chunk :: _) => ⟨.ok chunk.code, some b.cache, true⟩

/-! ## The npm-asset and never-disk load stages -/

/-- One step of path normalization over segments kept as a reversed stack:
empty and dot segments are dropped, a dot-dot pops, anything else pushes. -/
def joinSeg (acc : List (List Char)) (seg : List Char) : List (List Char) :=
  if seg = [] || seg = ['.'] then acc
  else if seg = ['.', '.'] then acc.tail
  else seg :: acc

/-- Node path.join of an absolute first path with a second path: concatenate
the segment lists and normalize, clamping dot-dot at the root. -/
def pathJoin (a b : String) : String :=
  String.mk ('/' ::
    joinChar '/' (((splitOnChar '/' a.data ++ splitOnChar '/' b.data).foldl joinSeg []).reverse))

/-- A NUL character as a string (rollup virtual-module prefix). -/
def nulStr : String := String.singleton (Char.ofNat 0)

/-- The relative node_modules part of the npm-asset replace regex. -/
def stripNMRel (s : String) : Option String :=
  if strStartsWith s "../node_modules" then some ("/@npm" ++ strDrop s 15)
  else if strStartsWith s "./node_modules" then some ("/@npm" ++ strDrop s 14)
  else none

/-- The replace of the npm-asset load hook: an optional NUL, one or two dots
and a node_modules segment at the start of the id are rewritten to the public
path; other ids are unchanged. -/
def stripNodeModules (id : String) : String :=
  if strStartsWith id nulStr then (stripNMRel (strDrop id 1)).getD id
  else (stripNMRel id).getD id

/-- The npm-asset load hook: ids whose join with the cwd passes the prefix
check are answered with a URL-string module (the disk read in the source is
commented out); anything else is logged and falls through (undefined). -/
def npmAssetLoad (cwd id : String) : Option String :=
  if strStartsWith (pathJoin cwd id) cwd then
    some ("export default \"" ++ stripNodeModules id ++ "\";")
  else
    none

/-- The never-disk load hook: throws for every id that reaches it (spec
taxonomy: DisallowedAccessError). -/
def neverDiskLoad (_id : String) : Except Err String :=
  .error .disallowedAccess

/-- The final two load stages of the bundleNpmModule plugin pipeline in
order: npm-asset first; ids it declines fall through to never-disk. -/
def loadChain (cwd id : String) : Except Err String :=
  match npmAssetLoad cwd id with
  | some code => .ok code
  | none => neverDiskLoad id

/-- Driving the load chain over every module id the compiler requests; the
first failing load aborts the whole build with its error and no output. -/
def runLoads (cwd : String) : List String → Except Err (List String)
  | [] => .ok []
  | id :: rest =>
    match loadChain cwd id with
    | .error e => .error e
    | .ok code =>
      match runLoads cwd rest with
      | .error e => .error e
      | .ok codes => .ok (code :: codes)

/-- A path is within a root when it is the root itself or a proper descendant
of it (root followed by a path separator). -/
def isWithinRoot (root p : String) : Bool :=
  p == root || strStartsWith p (root ++ "/")

/-! ## The npm-bundle.js plugin pipeline (npm-plugin-2) -/

/-- The stages of the npmBundle plugin array, in source order. -/
inductive BundleStage where
  | virtualEntry
  | browserField
  | npmExternalDeps
  | npmLocalPackage
  | npmAutoInstall
  | npmLoad
  | commonjs
  | subPackageLegacy
deriving DecidableEq, Repr

/-- JS truthiness of an environment variable: undefined and the empty string
are falsy, every other string is truthy. -/
def envTruthy : Option String → Bool
  | none => false
  | some s => !(s == "")

/-- The plugin array of npmBundle in npm-bundle.js: entries guarded by the
DISABLE_LOCAL_NPM environment switch and the autoInstall option evaluate to
a falsy value when their guard fails, and rollup drops falsy entries (here:
filterMap over optional stages). -/
def npmBundlePlugins (disableLocalNpm : Option String) (autoInstall : Bool) :
    List BundleStage :=
  ([some .virtualEntry, some .browserField, some .npmExternalDeps,
    if envTruthy disableLocalNpm then none else some .npmLocalPackage,
    if autoInstall then some .npmAutoInstall else none,
    some .npmLoad, some .commonjs, some .subPackageLegacy] :
    List (Option BundleStage)).filterMap id

/-! ## A spec-modelled specifier normalizer -/

/-- Split a package segment into name and version at the first at-sign after
the first character. -/
def splitNameVersion : List Char → List Char × List Char
  | [] => ([], [])
  | c0 :: rest =>
    match splitOnChar '@' rest with
    | [_] => (c0 :: rest, [])
    | t0 :: ts => (c0 :: t0, joinChar '@' ts)
    | [] => (c0 :: rest, [])

/-- Modelled from the spec: normalizeSpecifier (npm-plugin/index.js is not
under src/) parses the path into a package name (supporting scoped names), an
optional version suffix and a subpath, purely and with no I/O, and fails with
MalformedSpecifierError on inputs that do not match the grammar, such as an
empty package name or a scope with no name. -/
def normalizeSpecifierSpec (s : String) : Except Err Meta :=
  match splitOnChar '/' s.data with
  | [] => .error .malformedSpecifier
  | s0 :: rest =>
    if s0 = [] then .error .malformedSpecifier
    else if s0.headD ' ' = '@' then
      match rest with
      | [] => .error .malformedSpecifier
      | s1 :: rest2 =>
        if s1 = [] then .error .malformedSpecifier
        else
          let nv := splitNameVersion s1
          let sub := joinChar '/' rest2
          .ok ⟨String.mk (s0 ++ '/' :: nv.1 ++ (if sub = [] then [] else '/' :: sub)),
               String.mk nv.2, String.mk sub⟩
    else
      let nv := splitNameVersion s0
      let sub := joinChar '/' rest
      .ok ⟨String.mk (nv.1 ++ (if sub = [] then [] else '/' :: sub)),
           String.mk nv.2, String.mk sub⟩

/-! ## Concrete fixtures for witnesses and counterexamples -/

/-- A collaborator record whose normalizer echoes the path, whose resolver
pins version 1.0.0, whose caches are empty and whose bundler fails. -/
def wCollab : Collab :=
  ⟨fun s => .ok ⟨s, "", s⟩,
   fun m => .ok ⟨m.specifier, "1.0.0", m.path⟩,
   fun _ _ _ => none,
   fun _ => .error .buildError,
   fun _ => "body{color:red}"⟩

/-- Default options fixture. -/
def wOpts : MwOptions := ⟨[], none, "/app"⟩

/-- Request carrying the ETag of the echoed specifier, for the 304 path. -/
def c1Req : Request := ⟨"/preact", some (etagOf "preact" "1.0.0"), false⟩

/-- Request for a module bundle with no conditional header. -/
def c4Req : Request := ⟨"/preact", none, false⟩

/-- Request for a stylesheet subpath with the module flag. -/
def c5Req : Request := ⟨"/some-pkg/theme.css", none, true⟩

/-- Collaborators for the normalizer-failure counterexample: the spec
modelled normalizer with otherwise inert collaborators. -/
def c7Collab : Collab :=
  ⟨normalizeSpecifierSpec,
   fun m => .ok m,
   fun _ _ _ => none,
   fun _ => .error .buildError,
   fun _ => ""⟩

/-- Request whose pathname normalizes to the empty (malformed) specifier. -/
def c7Req : Request := ⟨"/", none, false⟩

/-- A rollup outcome whose generate step fails after producing a cache. -/
def c6Bundle : RollupBundle Nat := ⟨42, .error .buildError⟩

/-- A rollup outcome generating two chunks. -/
def c10Bundle : RollupBundle Nat := ⟨7, .ok [⟨"CODE0"⟩, ⟨"CODE1"⟩]⟩

/-- Collaborators whose bundler returns exactly what the bundleNpmModule
model returns on the two-chunk rollup outcome. -/
def c10Collab : Collab :=
  ⟨fun s => .ok ⟨s, "", s⟩,
   fun m => .ok ⟨m.specifier, "1.0.0", m.path⟩,
   fun _ _ _ => none,
   fun _ => (bundleNpmModule Nat .npm (.ok c10Bundle) none).result,
   fun _ => ""⟩

/-! ## Codec lemmas: base64 and UTF-8 are injective on valid inputs -/

theorem sextetVal_sextetChar : ∀ n, n < 64 → sextetVal (sextetChar n) = n := by decide

theorem sextetChar_ne_pad : ∀ n, n < 64 → sextetChar n ≠ '=' := by decide

theorem b64Decode_b64Encode : ∀ l : List Nat, (∀ b ∈ l, b < 256) →
    b64Decode (b64Encode l) = some l := by
  intro l
  induction l using b64Encode.induct with
  | case1 a b c rest ih =>
    intro h
    have ha : a < 256 := h a (by simp)
    have hb : b < 256 := h b (by simp)
    have hc : c < 256 := h c (by simp)
    simp only [b64Encode, b64Decode]
    rw [if_neg (sextetChar_ne_pad _ (by omega)), if_neg (sextetChar_ne_pad _ (by omega))]
    rw [ih (by intro x hx; exact h x (by simp [hx]))]
    simp only [Option.map_some', Option.some.injEq, List.cons.injEq]
    rw [sextetVal_sextetChar _ (by omega), sextetVal_sextetChar _ (by omega),
        sextetVal_sextetChar _ (by omega), sextetVal_sextetChar _ (by omega)]
    exact ⟨by omega, by omega, by omega, trivial⟩
  | case2 a b =>
    intro h
    have ha : a < 256 := h a (by simp)
    have hb : b < 256 := h b (by simp)
    simp only [b64Encode, b64Decode]
    rw [if_neg (sextetChar_ne_pad _ (by omega))]
    rw [if_pos trivial]
    simp only [Option.some.injEq, List.cons.injEq]
    rw [sextetVal_sextetChar _ (by omega), sextetVal_sextetChar _ (by omega),
        sextetVal_sextetChar _ (by omega)]
    exact ⟨by omega, by omega, trivial⟩
  | case3 a =>
    intro h
    have ha : a < 256 := h a (by simp)
    simp only [b64Encode, b64Decode]
    rw [if_pos trivial]
    simp only [Option.some.injEq, List.cons.injEq]
    rw [sextetVal_sextetChar _ (by omega), sextetVal_sextetChar _ (by omega)]
    exact ⟨by omega, trivial⟩
  | case4 => intro _; rfl

theorem b64Encode_inj (l1 l2 : List Nat) (h1 : ∀ b ∈ l1, b < 256) (h2 : ∀ b ∈ l2, b < 256)
    (he : b64Encode l1 = b64Encode l2) : l1 = l2 := by
  have := b64Decode_b64Encode l1 h1
  rw [he, b64Decode_b64Encode l2 h2] at this
  exact (Option.some.inj this).symm

theorem utf8Decode_encodeChar (n : Nat) (hn : n < 1114112) (bs : List Nat) :
    utf8Decode (utf8EncodeChar n ++ bs) = (utf8Decode bs).map (fun l => n :: l) := by
  unfold utf8EncodeChar
  split
  · rename_i h1
    simp only [List.cons_append, List.nil_append]
    rw [utf8Decode, if_pos h1]
  · split
    · rename_i h1 h2
      simp only [List.cons_append, List.nil_append]
      rw [utf8Decode, if_neg (by omega)]
      have hk : utf8ContLen (192 + n / 64) = 1 := by
        unfold utf8ContLen; rw [if_pos (by omega)]
      have hcp : utf8Cp (192 + n / 64) ((128 + n % 64) :: bs) = n := by
        unfold utf8Cp
        rw [if_pos (by omega)]
        simp only [List.getD_cons_zero]
        omega
      rw [hk, if_pos (by simp), hcp]
      simp
    · split
      · rename_i h1 h2 h3
        simp only [List.cons_append, List.nil_append]
        rw [utf8Decode, if_neg (by omega)]
        have hk : utf8ContLen (224 + n / 4096) = 2 := by
          unfold utf8ContLen; rw [if_neg (by omega), if_pos (by omega)]
        have hcp : utf8Cp (224 + n / 4096) ((128 + n / 64 % 64) :: (128 + n % 64) :: bs) = n := by
          unfold utf8Cp
          rw [if_neg (by omega), if_pos (by omega)]
          simp only [List.getD_cons_zero, List.getD_cons_succ]
          omega
        rw [hk, if_pos (by simp), hcp]
        simp
      · rename_i h1 h2 h3
        simp only [List.cons_append, List.nil_append]
        rw [utf8Decode, if_neg (by omega)]
        have hk : utf8ContLen (240 + n / 262144) = 3 := by
          unfold utf8ContLen; rw [if_neg (by omega), if_neg (by omega)]
        have hcp : utf8Cp (240 + n / 262144)
            ((128 + n / 4096 % 64) :: (128 + n / 64 % 64) :: (128 + n % 64) :: bs) = n := by
          unfold utf8Cp
          rw [if_neg (by omega), if_neg (by omega)]
          simp only [List.getD_cons_zero, List.getD_cons_succ]
          omega
        rw [hk, if_pos (by simp), hcp]
        simp

theorem utf8Decode_utf8Encode : ∀ l : List Nat, (∀ n ∈ l, n < 1114112) →
    utf8Decode (utf8Encode l) = some l := by
  intro l
  induction l with
  | nil => intro _; simp [utf8Encode, utf8Decode]
  | cons n rest ih =>
    intro h
    simp only [utf8Encode]
    rw [utf8Decode_encodeChar n (h n (by simp)) (utf8Encode rest)]
    rw [ih (by intro x hx; exact h x (by simp [hx]))]
    rfl

theorem utf8Encode_inj (l1 l2 : List Nat) (h1 : ∀ n ∈ l1, n < 1114112)
    (h2 : ∀ n ∈ l2, n < 1114112) (he : utf8Encode l1 = utf8Encode l2) : l1 = l2 := by
  have := utf8Decode_utf8Encode l1 h1
  rw [he, utf8Decode_utf8Encode l2 h2] at this
  exact (Option.some.inj this).symm

theorem utf8EncodeChar_lt (n : Nat) (hn : n < 1114112) : ∀ b ∈ utf8EncodeChar n, b < 256 := by
  intro b hb
  unfold utf8EncodeChar at hb
  split at hb
  · simp at hb; omega
  · split at hb
    · simp at hb; omega
    · split at hb
      · simp at hb; omega
      · simp at hb; omega

theorem utf8Encode_lt : ∀ l : List Nat, (∀ n ∈ l, n < 1114112) →
    ∀ b ∈ utf8Encode l, b < 256 := by
  intro l
  induction l with
  | nil => intro _ b hb; simp [utf8Encode] at hb
  | cons n rest ih =>
    intro h b hb
    simp only [utf8Encode, List.mem_append] at hb
    rcases hb with hb | hb
    · exact utf8EncodeChar_lt n (h n (by simp)) b hb
    · exact ih (by intro x hx; exact h x (by simp [hx])) b hb

theorem charToNat_lt (c : Char) : c.toNat < 1114112 := by
  rcases c.valid with h | ⟨_, h2⟩
  · exact lt_trans h (by norm_num)
  · exact h2

theorem charToNat_inj (c d : Char) (h : c.toNat = d.toNat) : c = d :=
  Char.eq_of_val_eq (UInt32.ext h)

theorem map_charToNat_inj : ∀ l1 l2 : List Char,
    l1.map Char.toNat = l2.map Char.toNat → l1 = l2 := by
  intro l1
  induction l1 with
  | nil => intro l2 h; cases l2 <;> simp_all
  | cons c rest ih =>
    intro l2 h
    cases l2 with
    | nil => simp at h
    | cons d rest2 =>
      simp only [List.map_cons, List.cons.injEq] at h
      exact List.cons_eq_cons.mpr ⟨charToNat_inj c d h.1, ih rest2 h.2⟩

theorem utf8Bytes_lt (s : String) : ∀ b ∈ utf8Bytes s, b < 256 :=
  utf8Encode_lt _ (by
    intro n hn
    simp only [List.mem_map] at hn
    obtain ⟨c, _, rfl⟩ := hn
    exact charToNat_lt c)

theorem utf8Bytes_inj (s t : String) (h : utf8Bytes s = utf8Bytes t) : s = t := by
  have hm := utf8Encode_inj _ _
    (by intro n hn; simp only [List.mem_map] at hn; obtain ⟨c, _, rfl⟩ := hn
        exact charToNat_lt c)
    (by intro n hn; simp only [List.mem_map] at hn; obtain ⟨c, _, rfl⟩ := hn
        exact charToNat_lt c) h
  have hd := map_charToNat_inj _ _ hm
  cases s; cases t; exact congrArg String.mk hd

/-! ## Claim C2: the ETag as a function of the (specifier, version) pair -/

/-- Claim C2, counterexample: the ETag concatenates specifier and version
before encoding, so the distinct pairs (a, bc) and (ab, c) produce the same
key — distinct (specifier, version) pairs can collide. -/
theorem c2_collision_cex :
    etagOf "a" "bc" = etagOf "ab" "c" ∧ ("a", "bc") ≠ (("ab", "c") : String × String) :=
  ⟨rfl, by decide⟩

/-- Claim C2 (amended): the ETag is a pure, deterministic function of the
pair, and two pairs receive the same key exactly when the concatenations
specifier ++ version coincide; in particular pairs whose concatenations
differ never collide, and identical pairs always agree. -/
theorem c2_etag_eq_iff (s1 v1 s2 v2 : String) :
    etagOf s1 v1 = etagOf s2 v2 ↔ s1 ++ v1 = s2 ++ v2 := by
  constructor
  · intro h
    unfold etagOf at h
    have hb : b64Encode (utf8Bytes (s1 ++ v1)) = b64Encode (utf8Bytes (s2 ++ v2)) := by
      have hd := congrArg String.data h
      simpa using hd
    exact utf8Bytes_inj _ _ (b64Encode_inj _ _ (utf8Bytes_lt _) (utf8Bytes_lt _) hb)
  · intro h
    unfold etagOf
    rw [h]

/-- Claim C2, witness for the amended theorem at a concrete pair. -/
theorem c2_etag_witness :
    etagOf "preact" "10.4.8" = etagOf "preact" "10.4.8" ↔
      "preact" ++ "10.4.8" = "preact" ++ "10.4.8" :=
  c2_etag_eq_iff "preact" "10.4.8" "preact" "10.4.8"

/-! ## Claim C1: conditional requests short-circuit with 304 -/

/-- Claim C1: when the if-none-match header, stripped of a compression
suffix, equals the computed ETag, the middleware answers status 304 with an
empty body, and neither the cache manager (getCachedBundle, setCachedBundle)
nor the bundle builder (bundleNpmModule, handleAsset) is invoked — the effect
trace is empty. -/
theorem c1_conditional_304 (c : Collab) (opts : MwOptions) (req : Request) (m0 m : Meta)
    (h1 : c.normalizeSpecifier (stripLeadingSlash req.pathname) = .ok m0)
    (h2 : c.resolvePackageVersion m0 = .ok m)
    (h3 : stripCompressSuffix (headerString req.ifNoneMatch) = etagOf m.specifier m.version) :
    npmMiddleware c opts req = ⟨some ⟨304, [], ""⟩, emptyEffects, false⟩ := by
  simp only [npmMiddleware, h1, h2]
  rw [if_pos h3]

/-- Claim C1, witness: a concrete conditional request is answered 304 with no
collaborator invocation. -/
theorem c1_conditional_304_witness :
    (wCollab.normalizeSpecifier (stripLeadingSlash c1Req.pathname) = .ok ⟨"preact", "", "preact"⟩ ∧
     wCollab.resolvePackageVersion ⟨"preact", "", "preact"⟩ = .ok ⟨"preact", "1.0.0", "preact"⟩ ∧
     stripCompressSuffix (headerString c1Req.ifNoneMatch) = etagOf "preact" "1.0.0") ∧
    npmMiddleware wCollab wOpts c1Req = ⟨some ⟨304, [], ""⟩, emptyEffects, false⟩ :=
  ⟨⟨rfl, rfl, by decide⟩,
   c1_conditional_304 wCollab wOpts c1Req ⟨"preact", "", "preact"⟩ ⟨"preact", "1.0.0", "preact"⟩
     rfl rfl (by decide)⟩

/-! ## Claim C7: fail-fast of the normalizer and the resolver -/

/-- Claim C7, counterexample: on a malformed specifier the normalizer fails,
the request produces no cache or build work, but the error is not handed to
the next callback (nextCalls is empty) — it escapes the handler as a rejected
promise, contradicting the claim that every such error goes to next. -/
theorem c7_next_cex :
    normalizeSpecifierSpec "" = .error .malformedSpecifier ∧
    (npmMiddleware c7Collab wOpts c7Req).effects.nextCalls = [] ∧
    (npmMiddleware c7Collab wOpts c7Req).thrown = true :=
  ⟨rfl, rfl, rfl⟩

/-- Claim C7 (amended): a resolver failure aborts the request before any
cache lookup or build work and is handed to the next callback; a normalizer
failure likewise aborts before any cache or build work, but it propagates as
an uncaught exception out of the handler and the next callback is not
invoked for it. -/
theorem c7_failfast (c : Collab) (opts : MwOptions) (req : Request) :
    (∀ e, c.normalizeSpecifier (stripLeadingSlash req.pathname) = .error e →
      npmMiddleware c opts req = ⟨none, emptyEffects, true⟩) ∧
    (∀ m0 e, c.normalizeSpecifier (stripLeadingSlash req.pathname) = .ok m0 →
      c.resolvePackageVersion m0 = .error e →
      npmMiddleware c opts req = ⟨none, ⟨false, [], false, false, [], [e]⟩, false⟩) := by
  constructor
  · intro e he
    simp only [npmMiddleware, he]
  · intro m0 e h1 h2
    simp only [npmMiddleware, h1, h2]

/-- Claim C7, witness: the amended theorem applied to the concrete malformed
request. -/
theorem c7_failfast_witness :
    c7Collab.normalizeSpecifier (stripLeadingSlash c7Req.pathname) = .error .malformedSpecifier ∧
    npmMiddleware c7Collab wOpts c7Req = ⟨none, emptyEffects, true⟩ :=
  ⟨rfl, (c7_failfast c7Collab wOpts c7Req).1 .malformedSpecifier rfl⟩

/-! ## Claim C4: a failed build never populates the cache -/

/-- Claim C4: on the module bundling path (no 304, no asset dispatch, cache
miss), a bundler failure leaves the whole effect trace without any
setCachedBundle call and without an enqueued compression job: the response is
never written, the error goes to next, and the cache is untouched. -/
theorem c4_build_failure_no_store (c : Collab) (opts : MwOptions) (req : Request)
    (m0 m : Meta) (e : Err)
    (h1 : c.normalizeSpecifier (stripLeadingSlash req.pathname) = .ok m0)
    (h2 : c.resolvePackageVersion m0 = .ok m)
    (h3 : stripCompressSuffix (headerString req.ifNoneMatch) ≠ etagOf m.specifier m.version)
    (h4 : isAssetPath m.path = false)
    (h5 : c.getCachedBundle (etagOf m.specifier m.version) m opts.cwd = none)
    (h6 : c.bundleNpmModule (stripLeadingSlash req.pathname) = .error e) :
    npmMiddleware c opts req = ⟨none, ⟨true, [], true, false, [], [e]⟩, false⟩ := by
  simp only [npmMiddleware, h1, h2]
  rw [if_neg h3]
  simp only [h4, Bool.false_eq_true, if_false, h5, h6]

/-- Claim C4, witness: a concrete cache-miss request whose bundler fails
stores nothing and hands the build error to next. -/
theorem c4_build_failure_no_store_witness :
    (wCollab.normalizeSpecifier (stripLeadingSlash c4Req.pathname) = .ok ⟨"preact", "", "preact"⟩ ∧
     wCollab.resolvePackageVersion ⟨"preact", "", "preact"⟩ = .ok ⟨"preact", "1.0.0", "preact"⟩ ∧
     stripCompressSuffix (headerString c4Req.ifNoneMatch) ≠ etagOf "preact" "1.0.0" ∧
     isAssetPath "preact" = false ∧
     wCollab.bundleNpmModule (stripLeadingSlash c4Req.pathname) = .error .buildError) ∧
    npmMiddleware wCollab wOpts c4Req =
      ⟨none, ⟨true, [], true, false, [], [.buildError]⟩, false⟩ :=
  ⟨⟨rfl, rfl, by decide, by decide, rfl⟩,
   c4_build_failure_no_store wCollab wOpts c4Req ⟨"preact", "", "preact"⟩
     ⟨"preact", "1.0.0", "preact"⟩ .buildError rfl rfl (by decide) (by decide) rfl rfl⟩

/-! ## Claim C5: stylesheet dispatch -/

theorem isStylesheetPath_isAssetPath (p : String) (h : isStylesheetPath p = true) :
    isAssetPath p = true := by
  unfold isAssetPath
  rw [h]
  rfl

theorem getMimeType_stylesheet (p : String) (h : isStylesheetPath p = true) :
    getMimeType p = some "text/css" := by
  unfold getMimeType
  rw [if_pos h]

/-- Claim C5: a request for a stylesheet subpath is dispatched to handleAsset
(no compiler, no cache); with the module flag the response is the JS proxy
module — exactly one import of the runtime style loader and one style call
whose sole argument is the JSON literal of the decorated specifier — served
as application/javascript;charset=utf-8, and without the flag it is the raw
package file bytes served with the stylesheet content type. -/
theorem c5_stylesheet_dispatch (c : Collab) (opts : MwOptions) (req : Request)
    (m0 m : Meta)
    (h1 : c.normalizeSpecifier (stripLeadingSlash req.pathname) = .ok m0)
    (h2 : c.resolvePackageVersion m0 = .ok m)
    (h3 : stripCompressSuffix (headerString req.ifNoneMatch) ≠ etagOf m.specifier m.version)
    (h4 : isStylesheetPath m.path = true) :
    (npmMiddleware c opts req).effects = ⟨false, [], false, true, [], []⟩ ∧
    (req.queryModule = true →
      (npmMiddleware c opts req).response = some
        ⟨200,
         [("etag", etagOf m.specifier m.version),
          ("content-type", "application/javascript;charset=utf-8"),
          ("content-length", toString (byteLength (styleProxyCode m.specifier)))],
         styleImportStmt ++ "\n" ++
           styleCallStmt (jsonStringify ("/@npm/" ++ m.specifier ++ "?asset"))⟩) ∧
    (req.queryModule = false →
      (npmMiddleware c opts req).response = some
        ⟨200,
         [("etag", etagOf m.specifier m.version),
          ("content-type", "text/css"),
          ("content-length", toString (byteLength (c.loadPackageFile m)))],
         c.loadPackageFile m⟩) := by
  have ha : isAssetPath m.path = true := isStylesheetPath_isAssetPath m.path h4
  have hmw : npmMiddleware c opts req =
      ⟨some (handleAsset c m req.queryModule [("etag", etagOf m.specifier m.version)]),
       ⟨false, [], false, true, [], []⟩, false⟩ := by
    simp only [npmMiddleware, h1, h2]
    rw [if_neg h3]
    simp only [ha, if_true]
  refine ⟨by rw [hmw], ?_, ?_⟩
  · intro hq
    rw [hmw]
    simp only [handleAsset, hq, if_true, styleProxyCode]
    rfl
  · intro hq
    rw [hmw]
    simp only [handleAsset, hq, Bool.false_eq_true, if_false,
      getMimeType_stylesheet m.path h4, Option.getD_some]
    rfl

/-- Claim C5, witness: the concrete stylesheet request with the module flag
is answered with the proxy module. -/
theorem c5_stylesheet_dispatch_witness :
    (wCollab.normalizeSpecifier (stripLeadingSlash c5Req.pathname) =
       .ok ⟨"some-pkg/theme.css", "", "some-pkg/theme.css"⟩ ∧
     isStylesheetPath "some-pkg/theme.css" = true ∧ c5Req.queryModule = true) ∧
    (npmMiddleware wCollab wOpts c5Req).response = some
      ⟨200,
       [("etag", etagOf "some-pkg/theme.css" "1.0.0"),
        ("content-type", "application/javascript;charset=utf-8"),
        ("content-length", toString (byteLength (styleProxyCode "some-pkg/theme.css")))],
       styleImportStmt ++ "\n" ++
         styleCallStmt (jsonStringify ("/@npm/" ++ "some-pkg/theme.css" ++ "?asset"))⟩ :=
  ⟨⟨rfl, by decide, rfl⟩,
   (c5_stylesheet_dispatch wCollab wOpts c5Req ⟨"some-pkg/theme.css", "", "some-pkg/theme.css"⟩
     ⟨"some-pkg/theme.css", "1.0.0", "some-pkg/theme.css"⟩
     rfl rfl (by decide) (by decide)).2.1 rfl⟩

/-! ## Claim C3: the out-of-root load guard -/

theorem loadChain_error_disallowed (cwd id : String) (e : Err)
    (h : loadChain cwd id = .error e) : e = .disallowedAccess := by
  unfold loadChain at h
  cases hn : npmAssetLoad cwd id with
  | none => rw [hn] at h; cases h; rfl
  | some code => rw [hn] at h; cases h

/-- Claim C3, counterexample: the guard is a string-prefix check on the
joined path, so the id dot-dot slash app2 slash x joined below the root
slash-app resolves to slash-app2-slash-x — a path outside the root — yet it
passes the check and the build does not fail: the load returns a URL-string
module instead of DisallowedAccessError. -/
theorem c3_guard_cex :
    isWithinRoot "/app" (pathJoin "/app" "../app2/x") = false ∧
    runLoads "/app" ["../app2/x"] = .ok ["export default \"../app2/x\";"] :=
  ⟨by decide, rfl⟩

/-- Claim C3 (amended): every build-stage load whose joined path fails the
string-prefix check against the root aborts the whole build with
DisallowedAccessError and produces no output; paths outside the root that
happen to share the root as a string prefix are not rejected. -/
theorem c3_guard (cwd : String) (ids : List String) (id : String)
    (hmem : id ∈ ids)
    (hout : strStartsWith (pathJoin cwd id) cwd = false) :
    runLoads cwd ids = .error .disallowedAccess := by
  induction ids with
  | nil => cases hmem
  | cons x rest ih =>
    rcases List.mem_cons.mp hmem with rfl | hmem2
    · have hlc : loadChain cwd id = .error .disallowedAccess := by
        unfold loadChain npmAssetLoad
        rw [hout]
        rfl
      unfold runLoads
      rw [hlc]
    · unfold runLoads
      cases hlc : loadChain cwd x with
      | error e => rw [loadChain_error_disallowed cwd x e hlc]
      | ok code => rw [ih hmem2]

/-- Claim C3, witness: a concrete escaping id makes the whole load run fail
with DisallowedAccessError. -/
theorem c3_guard_witness :
    ("../../x" ∈ ["lib/a.js", "../../x"] ∧
     strStartsWith (pathJoin "/r" "../../x") "/r" = false) ∧
    runLoads "/r" ["lib/a.js", "../../x"] = .error .disallowedAccess :=
  ⟨⟨by decide, by decide⟩, c3_guard "/r" ["lib/a.js", "../../x"] "../../x" (by decide) (by decide)⟩

/-! ## Claims C6 and C8: the warm cache and the unpkg source -/

/-- Claim C6, counterexample: a build whose generate step fails is a failed
build, yet npmCache has already been reassigned from it — the commit happens
after rollup.rollup but before generate, so a failed build does not leave
npmCache unchanged. -/
theorem c6_commit_cex :
    (bundleNpmModule Nat .npm (.ok c6Bundle) none).result = .error .buildError ∧
    (bundleNpmModule Nat .npm (.ok c6Bundle) none).npmCache = some 42 ∧
    some 42 ≠ (none : Option Nat) :=
  ⟨rfl, rfl, by decide⟩

/-- Claim C6 (amended): npmCache is committed exactly when the analysis phase
rollup.rollup succeeds: the unpkg fail-fast and an analysis failure leave it
unchanged, but the commit precedes output generation, so a build failing in
generate (or crashing on empty output) has already replaced npmCache with the
cache of that partially-finished build. -/
theorem c6_warm_cache_commit (C : Type) (rollupRun : Except Err (RollupBundle C))
    (cache0 : Option C) :
    (∀ e, rollupRun = .error e →
      (bundleNpmModule C .npm rollupRun cache0).npmCache = cache0) ∧
    (bundleNpmModule C .unpkg rollupRun cache0).npmCache = cache0 ∧
    (∀ b, rollupRun = .ok b →
      (bundleNpmModule C .npm rollupRun cache0).npmCache = some b.cache) := by
  refine ⟨?_, rfl, ?_⟩
  · rintro e rfl
    rfl
  · rintro b rfl
    rcases hg : b.genOutput with e | (_ | ⟨ch, rest⟩) <;> simp [bundleNpmModule, hg]

/-- Claim C6, witness: the amended theorem applied to a successful analysis
phase commits that cache. -/
theorem c6_warm_cache_commit_witness :
    ((.ok c10Bundle : Except Err (RollupBundle Nat)) = .ok c10Bundle) ∧
    (bundleNpmModule Nat .npm (.ok c10Bundle) none).npmCache = some 7 :=
  ⟨rfl, (c6_warm_cache_commit Nat (.ok c10Bundle) none).2.2 c10Bundle rfl⟩

/-- Claim C8: selecting the disabled unpkg source fails fast with
UnsupportedSourceError before the compiler is ever invoked, leaving the warm
cache untouched. -/
theorem c8_unpkg_failfast (C : Type) (rollupRun : Except Err (RollupBundle C))
    (cache0 : Option C) :
    bundleNpmModule C .unpkg rollupRun cache0 =
      ⟨.error .unsupportedSource, cache0, false⟩ := rfl

/-- Claim C8, witness: the fail-fast at a concrete configuration. -/
theorem c8_unpkg_failfast_witness :
    bundleNpmModule Nat .unpkg (.ok c10Bundle) (some 3) =
      ⟨.error .unsupportedSource, some 3, false⟩ :=
  c8_unpkg_failfast Nat (.ok c10Bundle) (some 3)

/-! ## Claim C9: the DISABLE_LOCAL_NPM switch -/

/-- Claim C9, counterexample: the switch set to the empty string is set, yet
the guard tests JS truthiness, so the local-package stage is still included
in the pipeline. -/
theorem c9_local_stage_cex :
    (some "" : Option String) ≠ none ∧
    BundleStage.npmLocalPackage ∈ npmBundlePlugins (some "") false := by
  refine ⟨by decide, by decide⟩

/-- Claim C9 (amended): the local-package stage is excluded from the
constructed pipeline exactly when DISABLE_LOCAL_NPM is set to a truthy
(non-empty) string; when it is unset or set to the empty string the stage is
included. -/
theorem c9_local_stage_iff (env : Option String) (ai : Bool) :
    BundleStage.npmLocalPackage ∈ npmBundlePlugins env ai ↔ envTruthy env = false := by
  cases env with
  | none => cases ai <;> decide
  | some s =>
    by_cases hs : s = ""
    · subst hs; cases ai <;> decide
    · have hs2 : (s == "") = false := beq_eq_false_iff_ne.mpr hs
      cases ai <;> simp [npmBundlePlugins, envTruthy, hs2]

/-- Claim C9, witness: the amended theorem at a concrete truthy value. -/
theorem c9_local_stage_iff_witness :
    BundleStage.npmLocalPackage ∈ npmBundlePlugins (some "1") true ↔
      envTruthy (some "1") = false :=
  c9_local_stage_iff (some "1") true

/-! ## Claim C10: only chunk zero is served and stored -/

/-- Claim C10: a successful build returns exactly the code of the first
generated chunk, whatever further chunks the compiler emits, and the
middleware serves that code as the body and stores precisely that code under
the ETag — later chunks are never served or stored. -/
theorem c10_first_chunk (C : Type) (b : RollupBundle C) (ch : OutputChunk)
    (rest : List OutputChunk) (hgen : b.genOutput = .ok (ch :: rest)) (cache0 : Option C)
    (c : Collab) (opts : MwOptions) (req : Request) (m0 m : Meta)
    (h1 : c.normalizeSpecifier (stripLeadingSlash req.pathname) = .ok m0)
    (h2 : c.resolvePackageVersion m0 = .ok m)
    (h3 : stripCompressSuffix (headerString req.ifNoneMatch) ≠ etagOf m.specifier m.version)
    (h4 : isAssetPath m.path = false)
    (h5 : c.getCachedBundle (etagOf m.specifier m.version) m opts.cwd = none)
    (hb : c.bundleNpmModule (stripLeadingSlash req.pathname) =
      (bundleNpmModule C .npm (.ok b) cache0).result) :
    (bundleNpmModule C .npm (.ok b) cache0).result = .ok ch.code ∧
    (npmMiddleware c opts req).response = some
      ⟨200,
       [("etag", etagOf m.specifier m.version),
        ("content-type", "application/javascript;charset=utf-8"),
        ("content-length", toString (byteLength ch.code))],
       ch.code⟩ ∧
    (npmMiddleware c opts req).effects.setCachedBundleCalls =
      [(etagOf m.specifier m.version, ch.code)] := by
  have hres : (bundleNpmModule C .npm (.ok b) cache0).result = .ok ch.code := by
    simp [bundleNpmModule, hgen]
  rw [hres] at hb
  refine ⟨hres, ?_, ?_⟩ <;>
  · simp only [npmMiddleware, h1, h2]
    rw [if_neg h3]
    simp only [h4, Bool.false_eq_true, if_false, h5, hb]
    try rfl

/-- Claim C10, witness: with a two-chunk compiler output only the first
chunk's code is served and stored. -/
theorem c10_first_chunk_witness :
    (c10Bundle.genOutput = .ok [⟨"CODE0"⟩, ⟨"CODE1"⟩] ∧
     c10Collab.bundleNpmModule (stripLeadingSlash c4Req.pathname) =
       (bundleNpmModule Nat .npm (.ok c10Bundle) none).result) ∧
    (bundleNpmModule Nat .npm (.ok c10Bundle) none).result = .ok "CODE0" ∧
    (npmMiddleware c10Collab wOpts c4Req).effects.setCachedBundleCalls =
      [(etagOf "preact" "1.0.0", "CODE0")] :=
  ⟨⟨rfl, rfl⟩,
   (c10_first_chunk Nat c10Bundle ⟨"CODE0"⟩ [⟨"CODE1"⟩] rfl none c10Collab wOpts c4Req
     ⟨"preact", "", "preact"⟩ ⟨"preact", "1.0.0", "preact"⟩
     rfl rfl (by decide) (by decide) rfl rfl).1,
   ((c10_first_chunk Nat c10Bundle ⟨"CODE0"⟩ [⟨"CODE1"⟩] rfl none c10Collab wOpts c4Req
     ⟨"preact", "", "preact"⟩ ⟨"preact", "1.0.0", "preact"⟩
     rfl rfl (by decide) (by decide) rfl rfl).2.2)⟩

end Wmr
